import Mathlib

/-!
# Verification of the `glob-diff` snapshot-diff engine

Shallow embedding of `src/glob-diff.ts`. The filesystem, the globbing
library (`globby`), the hash function (`hasha`'s `hashFile`) and
`path.resolve` are external collaborators; they are modelled as components
of an environment record. JavaScript runtime values that flow through the
untyped validator are modelled by the inductive `JSValue`.
-/

namespace GlobDiff

/-- `interface GlobDiffFileSnapshot { hash: string; mtimeMs: number }`.
`mtimeMs` is compared only for exact equality by the code, so it is
modelled as an integer. -/
structure GlobDiffFileSnapshot where
  hash : String
  mtimeMs : Int
deriving Repr, DecidableEq

/-- `interface GlobDiffSnapshot { [filePath: string]: GlobDiffFileSnapshot }`:
a JavaScript object, embedded as an association list from file path to
file snapshot. A JavaScript object cannot hold two properties with the
same key, so snapshots arising from the code always have `Nodup` keys;
theorems that need key uniqueness take it as a hypothesis. -/
abbrev GlobDiffSnapshot := List (String × GlobDiffFileSnapshot)

/-- Property lookup `snapshot[filePath]` on a snapshot object
(`undefined`, i.e. `none`, when the key is absent). -/
def snapLookup (s : GlobDiffSnapshot) (filePath : String) :
    Option GlobDiffFileSnapshot :=
  (s.find? (fun e => e.1 = filePath)).map (fun e => e.2)

/-- `type GlobDiffChangeType = 'create' | 'delete' | 'update'` -/
inductive GlobDiffChangeType where
  | create
  | delete
  | update
deriving Repr, DecidableEq

/-- `interface GlobDiffChange { type: GlobDiffChangeType; filePath: string }` -/
structure GlobDiffChange where
  type : GlobDiffChangeType
  filePath : String
deriving Repr, DecidableEq

/-- Observable file-system side effects of one invocation, in program
order: reading the snapshot file, expanding glob patterns, `fs.promises.stat`,
hashing a file's bytes (`hashFile`), and writing the snapshot file. -/
inductive FsEvent where
  | readSnapshotFile
  | glob
  | statFile (filePath : String)
  | hashFile (filePath : String)
  | writeSnapshotFile
deriving Repr, DecidableEq

/-- `type GlobDiffPatterns = Parameters<typeof globby>[0]`: a single glob
string or a list of glob strings. -/
inductive GlobDiffPatterns where
  | single (s : String)
  | many (ps : List String)
deriving Repr, DecidableEq

/-- JavaScript truthiness of a patterns value: the empty string is falsy,
every array (even `[]`) is truthy. -/
def patternsTruthy : GlobDiffPatterns → Bool
  | .single s => decide (s ≠ "")
  | .many _ => true

/-! ## JavaScript runtime values (for the untyped validator) -/

/-- A JavaScript value as seen by `isValidGlobDiffSnapshot`, whose
parameter is `any`. Objects are association lists of own enumerable
properties (unique keys in actual JavaScript). -/
inductive JSValue where
  | str (s : String)
  | num (n : Int)
  | jsBool (b : Bool)
  | null
  | undefined
  | arr (vs : List JSValue)
  | obj (fields : List (String × JSValue))

/-- The JavaScript `typeof` operator on the embedded values. Note
`typeof null`, `typeof []` and `typeof {}` are all `"object"`. -/
def jsTypeof : JSValue → String
  | .str _ => "string"
  | .num _ => "number"
  | .jsBool _ => "boolean"
  | .null => "object"
  | .undefined => "undefined"
  | .arr _ => "object"
  | .obj _ => "object"

/-- `value === null`. -/
def jsIsNull : JSValue → Bool
  | .null => true
  | _ => false

/-- JavaScript truthiness: `null`, `undefined`, `false`, `0` and `""` are
falsy; every object and array is truthy. -/
def jsTruthy : JSValue → Bool
  | .str s => decide (s ≠ "")
  | .num n => decide (n ≠ 0)
  | .jsBool b => b
  | .null => false
  | .undefined => false
  | .arr _ => true
  | .obj _ => true

/-- `Object.entries(value)` for the values that reach it in the validator:
the own properties of an object, or the index/element pairs of an array
(`Object.entries([x, y]) = [['0', x], ['1', y]]`). Other values yield no
entries (the validator only calls this after the `typeof`/null guard). -/
def jsEntries : JSValue → List (String × JSValue)
  | .obj fields => fields
  | .arr vs => (List.range vs.length).zip vs |>.map (fun e => (toString e.1, e.2))
  | _ => []

/-- Property access `value.key` (`undefined` when absent). Arrays have no
own string-named properties other than indices, and the validator only
accesses `"hash"` and `"mtimeMs"`, which are not indices. -/
def jsGet (v : JSValue) (key : String) : JSValue :=
  match v with
  | .obj fields =>
      match fields.find? (fun f => f.1 = key) with
      | some f => f.2
      | none => .undefined
  | .arr vs =>
      match key.toNat? with
      | some i => (vs.get? i).getD .undefined
      | none => .undefined
  | _ => .undefined

/-- The `in` operator `key in value` for the keys the validator tests:
own-property presence on objects, index presence on arrays. -/
def jsHasProp (v : JSValue) (key : String) : Bool :=
  match v with
  | .obj fields => fields.any (fun f => f.1 = key)
  | .arr vs =>
      match key.toNat? with
      | some i => decide (i < vs.length)
      | none => false
  | _ => false

/-- `isValidGlobDiffSnapshot(snapshot: any)`, translated clause by clause
from the source: reject when `typeof snapshot !== 'object'` or
`snapshot === null`; then for every `[filePath, fileSnapshot]` of
`Object.entries(snapshot)` reject when the entry value is not an
object-typed non-null value carrying a string `hash` and a numeric
`mtimeMs`. (The source also tests `typeof filePath !== 'string'`, which is
vacuous because `Object.entries` keys are always strings.) -/
def isValidGlobDiffSnapshot (snapshot : JSValue) : Bool :=
  if jsTypeof snapshot ≠ "object" ∨ jsIsNull snapshot then
    false
  else
    (jsEntries snapshot).all (fun e =>
      !(jsTypeof (JSValue.str e.1) ≠ "string" ∨
        jsTypeof e.2 ≠ "object" ∨
        jsIsNull e.2 ∨
        !(jsHasProp e.2 "hash") ∨
        !(jsHasProp e.2 "mtimeMs") ∨
        jsTypeof (jsGet e.2 "hash") ≠ "string" ∨
        jsTypeof (jsGet e.2 "mtimeMs") ≠ "number"))

/-- A validated snapshot value read back as a typed snapshot (the code
uses the object directly after the `snapshot is GlobDiffSnapshot` type
guard; this is the corresponding coercion in the embedding). -/
def jsToSnapshot (v : JSValue) : GlobDiffSnapshot :=
  (jsEntries v).filterMap (fun e =>
    match jsGet e.2 "hash", jsGet e.2 "mtimeMs" with
    | .str h, .num m => some (e.1, ⟨h, m⟩)
    | _, _ => none)

/-! ## Fingerprinter and Snapshot Builder -/

/-- The per-file body of `getGlobDiffSnapshot`'s `Promise.all` loop
(lines 176–198): stat the file, and either reuse the previous hash when
`!options.alwaysHash && previousSnapshot[filePath]?.mtimeMs === fileStats.mtimeMs`
or compute `hashFile(filePath)`. Returns the fingerprint together with the
file-system events it performs, so that "the hash function is not
invoked" is observable. -/
def fingerprintFile (alwaysHash : Bool) (previousSnapshot : GlobDiffSnapshot)
    (hashFn : String → String) (stat : String → Int) (filePath : String) :
    GlobDiffFileSnapshot × List FsEvent :=
  let mtimeMs := stat filePath
  match snapLookup previousSnapshot filePath with
  | some prev =>
      if !alwaysHash && prev.mtimeMs == mtimeMs then
        ({ hash := prev.hash, mtimeMs := mtimeMs },
         [.statFile filePath])
      else
        ({ hash := hashFn filePath, mtimeMs := mtimeMs },
         [.statFile filePath, .hashFile filePath])
  | none =>
      ({ hash := hashFn filePath, mtimeMs := mtimeMs },
       [.statFile filePath, .hashFile filePath])

/-- The assembly of `snapshot[filePath] = …` across all `filePaths`
(the concurrent writes target distinct keys; the resulting object is
keyed by exactly `filePaths`). -/
def buildSnapshot (alwaysHash : Bool) (filePaths : List String)
    (previousSnapshot : GlobDiffSnapshot) (hashFn : String → String)
    (stat : String → Int) : GlobDiffSnapshot × List FsEvent :=
  (filePaths.map (fun fp =>
      (fp, (fingerprintFile alwaysHash previousSnapshot hashFn stat fp).1)),
   filePaths.flatMap (fun fp =>
      (fingerprintFile alwaysHash previousSnapshot hashFn stat fp).2))

/-- The external collaborators of one invocation: the resolved result of
`globby(patterns, {absolute: true})`, `path.resolve`, `fs.promises.stat`,
the content hash, the snapshot-file read (`none` = the read failed) and
`JSON.parse` (`none` = throws). -/
structure GlobDiffEnv where
  globby : GlobDiffPatterns → List String
  resolve : String → String
  stat : String → Int
  hashFn : String → String
  snapshotFileContent : Option String
  parse : String → Option JSValue

/-- `options.patterns || []` (line 166): `undefined` and the falsy empty
string both fall back to the empty pattern array. -/
def effectivePatterns : Option GlobDiffPatterns → GlobDiffPatterns
  | some p => if patternsTruthy p then p else .many []
  | none => .many []

/-- `getGlobDiffSnapshot(options)` (lines 163–202): resolve the candidate
file list — `options.files` mapped through `path.resolve` when present,
otherwise `globby(options.patterns || [], {absolute: true})` — then build
the snapshot. -/
def getGlobDiffSnapshot (env : GlobDiffEnv) (alwaysHash : Bool)
    (files : Option (List String)) (patterns : Option GlobDiffPatterns)
    (previousSnapshot : GlobDiffSnapshot) :
    GlobDiffSnapshot × List FsEvent :=
  match files with
  | some fs =>
      buildSnapshot alwaysHash (fs.map env.resolve) previousSnapshot
        env.hashFn env.stat
  | none =>
      let built := buildSnapshot alwaysHash
        (env.globby (effectivePatterns patterns)) previousSnapshot
        env.hashFn env.stat
      (built.1, .glob :: built.2)

/-! ## Differ -/

/-- `getGlobDiffChanges(previousSnapshot, nextSnapshot)` (lines 204–242):
one `delete` per previous key absent from the next key set, then for each
next key a `create` when it is absent from the previous key set, an
`update` when `previousSnapshot[p]?.hash !== nextSnapshot[p]?.hash`, and
nothing otherwise. (`new Set(Object.keys(...))` is the identity on the
key list because object keys are unique.) -/
def getGlobDiffChanges (previousSnapshot nextSnapshot : GlobDiffSnapshot) :
    List GlobDiffChange :=
  let previousFilePaths := previousSnapshot.map (fun e => e.1)
  let nextFilePaths := nextSnapshot.map (fun e => e.1)
  (previousFilePaths.filter (fun p => !nextFilePaths.contains p)).map
      (fun p => { type := .delete, filePath := p })
    ++
  nextFilePaths.filterMap (fun p =>
    if !previousFilePaths.contains p then
      some { type := .create, filePath := p }
    else if (snapLookup previousSnapshot p).map (fun e => e.hash) ≠
            (snapLookup nextSnapshot p).map (fun e => e.hash) then
      some { type := .update, filePath := p }
    else
      none)

/-! ## Snapshot store and orchestrator -/

/-- `loadGlobDiffSnapshot(snapshotFilePath)` (lines 244–260): a failed
read (`.catch(() => undefined)`) or a falsy file content (the empty
string) yields the empty snapshot `{}`; otherwise the content is parsed
(`JSON.parse` throws on invalid JSON) and the parsed value must pass
shape validation. -/
def loadGlobDiffSnapshot (snapshotFileContent : Option String)
    (parse : String → Option JSValue) : Except String JSValue :=
  match snapshotFileContent with
  | none => .ok (.obj [])
  | some content =>
      if content = "" then .ok (.obj [])
      else
        match parse content with
        | none => .error "SyntaxError: JSON.parse"
        | some snapshot =>
            if isValidGlobDiffSnapshot snapshot then .ok snapshot
            else .error "Invalid `glob-diff` snapshot file"

/-- `interface GlobDiffOptions` — every field optional, `none` meaning
the key is absent. The in-memory `snapshot` option is a runtime value
(it is validated by the untyped validator before use). -/
structure GlobDiffOptions where
  alwaysHash : Option Bool := none
  patterns : Option GlobDiffPatterns := none
  files : Option (List String) := none
  saveSnapshot : Option Bool := none
  snapshot : Option JSValue := none
  snapshotFilePath : Option String := none

/-- `interface GlobDiffResult { snapshot; changes }`. -/
structure GlobDiffResult where
  snapshot : GlobDiffSnapshot
  changes : List GlobDiffChange
deriving Repr, DecidableEq

/-- Truthiness of `options.patterns` (`undefined` is falsy). -/
def optPatternsTruthy : Option GlobDiffPatterns → Bool
  | none => false
  | some p => patternsTruthy p

/-- The tail of `globDiff` from the `!options.patterns && !options.files`
check onward (lines 112–133), once `previousSnapshot` is fixed: the
configuration check, the snapshot build, the diff, and the conditional
`writeFile` (`options.saveSnapshot !== false`). Returns the file-system
events actually performed, in order, next to the outcome. -/
def globDiffRest (env : GlobDiffEnv) (options : GlobDiffOptions)
    (previousSnapshot : GlobDiffSnapshot) :
    List FsEvent × Except String GlobDiffResult :=
  if optPatternsTruthy options.patterns = false ∧ options.files.isSome = false then
    ([], .error "Either `patterns` or `files` must be provided")
  else
    let built := getGlobDiffSnapshot env (options.alwaysHash.getD false)
      options.files options.patterns previousSnapshot
    let changes := getGlobDiffChanges previousSnapshot built.1
    let saveEvents :=
      if options.saveSnapshot = some false then [] else [FsEvent.writeSnapshotFile]
    (built.2 ++ saveEvents, .ok ⟨built.1, changes⟩)

/-- The `previousSnapshot = await loadGlobDiffSnapshot(...)` path
(line 109) followed by the rest of `globDiff`: the snapshot-file read is
the first file-system event of the invocation. -/
def globDiffLoadAndRest (env : GlobDiffEnv) (options : GlobDiffOptions) :
    List FsEvent × Except String GlobDiffResult :=
  match loadGlobDiffSnapshot env.snapshotFileContent env.parse with
  | .error e => ([.readSnapshotFile], .error e)
  | .ok loaded =>
      let rest := globDiffRest env options (jsToSnapshot loaded)
      (.readSnapshotFile :: rest.1, rest.2)

/-- `globDiff(options)` (lines 90–134) for an already-normalized options
object: validate a supplied (truthy) `options.snapshot`, else load from
the snapshot file; then `globDiffRest`. -/
def globDiffModel (env : GlobDiffEnv) (options : GlobDiffOptions) :
    List FsEvent × Except String GlobDiffResult :=
  match options.snapshot with
  | some v =>
      if jsTruthy v then
        if isValidGlobDiffSnapshot v = false then
          ([], .error "Invalid `glob-diff` snapshot")
        else
          globDiffRest env options (jsToSnapshot v)
      else
        globDiffLoadAndRest env options
  | none => globDiffLoadAndRest env options

/-- The first argument of the overloaded entry point: either a patterns
value (a string or an array of strings) or an options object. -/
inductive PatternsOrOptions where
  | pats (p : GlobDiffPatterns)
  | opts (o : GlobDiffOptions)

/-- `isGlobDiffPatterns(x)` (lines 284–290): `typeof x === 'string' ||
Array.isArray(x)` — true exactly on the patterns shapes. -/
def isGlobDiffPatterns : PatternsOrOptions → Bool
  | .pats _ => true
  | .opts _ => false

/-- The object literal `{ patterns: patternsOrOptions, ...maybeOptions }`
(line 95): spreading `undefined` adds nothing; a spread object's own
`patterns` key (ruled out by the `Omit` type, but kept for fidelity)
would override. -/
def spreadOptions (p : GlobDiffPatterns) (maybeOptions : Option GlobDiffOptions) :
    GlobDiffOptions :=
  match maybeOptions with
  | none => { patterns := some p }
  | some o =>
      { o with patterns := match o.patterns with
          | some q => some q
          | none => some p }

/-- The overloaded `globDiff(patternsOrOptions, maybeOptions?)`
normalization (lines 94–96) followed by the body. -/
def globDiff (env : GlobDiffEnv) (patternsOrOptions : PatternsOrOptions)
    (maybeOptions : Option GlobDiffOptions) :
    List FsEvent × Except String GlobDiffResult :=
  match patternsOrOptions with
  | .pats p => globDiffModel env (spreadOptions p maybeOptions)
  | .opts o => globDiffModel env o

/-- A minimal concrete environment, used for closed instantiations:
no glob matches, identity resolution, constant stat and hash, no
snapshot file on disk, a parser that always throws. -/
def emptyEnv : GlobDiffEnv :=
  ⟨fun _ => [], fun s => s, fun _ => 0, fun _ => "d", none, fun _ => none⟩

/-! ## Basic lemmas about snapshot lookup -/

theorem snapLookup_nil (p : String) : snapLookup [] p = none := rfl

theorem snapLookup_cons (e : String × GlobDiffFileSnapshot)
    (s : GlobDiffSnapshot) (p : String) :
    snapLookup (e :: s) p = if e.1 = p then some e.2 else snapLookup s p := by
  by_cases h : e.1 = p <;> simp [snapLookup, List.find?, h]

theorem snapLookup_map_self (files : List String)
    (f : String → GlobDiffFileSnapshot) (p : String) :
    snapLookup (files.map (fun fp => (fp, f fp))) p =
      if p ∈ files then some (f p) else none := by
  induction files with
  | nil => simp [snapLookup]
  | cons a as ih =>
      by_cases h : a = p
      · subst h
        simp [snapLookup_cons]
      · rw [List.map_cons, snapLookup_cons]
        simp only [h, if_false, ih, List.mem_cons]
        have : ¬ p = a := fun hpa => h hpa.symm
        simp [this]

theorem snapLookup_isSome_iff (s : GlobDiffSnapshot) (p : String) :
    (snapLookup s p).isSome = true ↔ p ∈ s.map (fun e => e.1) := by
  induction s with
  | nil => simp [snapLookup]
  | cons e es ih =>
      rw [snapLookup_cons]
      by_cases h : e.1 = p
      · simp [h]
      · have : ¬ p = e.1 := fun hpa => h hpa.symm
        simp [h, ih, this]

/-! ## Equations for the per-file fingerprint step -/

theorem fingerprintFile_none (alwaysHash : Bool)
    (previousSnapshot : GlobDiffSnapshot) (hashFn : String → String)
    (stat : String → Int) (filePath : String)
    (h : snapLookup previousSnapshot filePath = none) :
    fingerprintFile alwaysHash previousSnapshot hashFn stat filePath =
      ({ hash := hashFn filePath, mtimeMs := stat filePath },
       [.statFile filePath, .hashFile filePath]) := by
  unfold fingerprintFile
  rw [h]

theorem fingerprintFile_some_reuse (alwaysHash : Bool)
    (previousSnapshot : GlobDiffSnapshot) (hashFn : String → String)
    (stat : String → Int) (filePath : String) (prev : GlobDiffFileSnapshot)
    (h : snapLookup previousSnapshot filePath = some prev)
    (hc : (!alwaysHash && prev.mtimeMs == stat filePath) = true) :
    fingerprintFile alwaysHash previousSnapshot hashFn stat filePath =
      ({ hash := prev.hash, mtimeMs := stat filePath },
       [.statFile filePath]) := by
  unfold fingerprintFile
  rw [h]
  simp only [hc, if_true]

theorem fingerprintFile_some_fresh (alwaysHash : Bool)
    (previousSnapshot : GlobDiffSnapshot) (hashFn : String → String)
    (stat : String → Int) (filePath : String) (prev : GlobDiffFileSnapshot)
    (h : snapLookup previousSnapshot filePath = some prev)
    (hc : (!alwaysHash && prev.mtimeMs == stat filePath) = false) :
    fingerprintFile alwaysHash previousSnapshot hashFn stat filePath =
      ({ hash := hashFn filePath, mtimeMs := stat filePath },
       [.statFile filePath, .hashFile filePath]) := by
  unfold fingerprintFile
  rw [h]
  simp only [hc, Bool.false_eq_true, if_false]

/-! ## Claims about the Fingerprinter -/

/-- C1: for every file path, previous snapshot, fresh stat timestamp and
`alwaysHash` flag, the per-file fingerprint step reuses the previous
entry's hash without invoking the hash function if and only if
`alwaysHash` is false, a previous entry for the exact path exists, and
that entry's `mtimeMs` equals the freshly observed `mtimeMs`; in every
other case it computes a fresh digest of the file's bytes (a `hashFile`
event occurs and the digest is the hash function's output). The resulting
fingerprint always carries the freshly observed `mtimeMs`. -/
theorem fingerprintFile_reuse_iff
    (alwaysHash : Bool) (previousSnapshot : GlobDiffSnapshot)
    (hashFn : String → String) (stat : String → Int) (filePath : String)
    (entry : GlobDiffFileSnapshot) (events : List FsEvent)
    (h : fingerprintFile alwaysHash previousSnapshot hashFn stat filePath
          = (entry, events)) :
    entry.mtimeMs = stat filePath ∧
    ((FsEvent.hashFile filePath ∉ events ∧
        ∃ prev, snapLookup previousSnapshot filePath = some prev ∧
          entry.hash = prev.hash)
      ↔ alwaysHash = false ∧
        ∃ prev, snapLookup previousSnapshot filePath = some prev ∧
          prev.mtimeMs = stat filePath) ∧
    (¬ (alwaysHash = false ∧
          ∃ prev, snapLookup previousSnapshot filePath = some prev ∧
            prev.mtimeMs = stat filePath) →
      entry.hash = hashFn filePath ∧ FsEvent.hashFile filePath ∈ events) := by
  rcases hl : snapLookup previousSnapshot filePath with _ | prev
  · rw [fingerprintFile_none alwaysHash previousSnapshot hashFn stat filePath hl] at h
    injection h with h1 h2
    subst h1
    subst h2
    refine ⟨rfl, ?_, ?_⟩
    · constructor
      · rintro ⟨-, prev, hprev, -⟩
        cases hprev
      · rintro ⟨-, prev, hprev, -⟩
        cases hprev
    · intro _
      exact ⟨rfl, by simp⟩
  · by_cases hc : alwaysHash = false ∧ prev.mtimeMs = stat filePath
    · have hb : (!alwaysHash && prev.mtimeMs == stat filePath) = true := by
        rw [hc.1]
        simp [hc.2]
      rw [fingerprintFile_some_reuse alwaysHash previousSnapshot hashFn stat
            filePath prev hl hb] at h
      injection h with h1 h2
      subst h1
      subst h2
      refine ⟨rfl, ?_, ?_⟩
      · constructor
        · intro _
          exact ⟨hc.1, prev, rfl, hc.2⟩
        · intro _
          exact ⟨by simp, prev, rfl, rfl⟩
      · intro hn
        exact absurd ⟨hc.1, prev, rfl, hc.2⟩ hn
    · have hb : (!alwaysHash && prev.mtimeMs == stat filePath) = false := by
        rcases Bool.eq_false_or_eq_true alwaysHash with ha | ha
        · simp [ha]
        · have hm : ¬ prev.mtimeMs = stat filePath := fun hm => hc ⟨ha, hm⟩
          simp [ha, hm]
      rw [fingerprintFile_some_fresh alwaysHash previousSnapshot hashFn stat
            filePath prev hl hb] at h
      injection h with h1 h2
      subst h1
      subst h2
      refine ⟨rfl, ?_, ?_⟩
      · constructor
        · rintro ⟨hne, -⟩
          exact absurd (by simp) hne
        · rintro ⟨ha, prev', hprev', hm⟩
          injection hprev' with he
          subst he
          exact absurd ⟨ha, hm⟩ hc
      · intro _
        exact ⟨rfl, by simp⟩

/-- Witness for C1: a concrete instantiation where the previous entry's
timestamp matches the fresh stat, so the hash is reused. -/
theorem fingerprintFile_reuse_iff_witness :
    (⟨"d0", 5⟩ : GlobDiffFileSnapshot).mtimeMs = 5 ∧
    ((FsEvent.hashFile "a" ∉ [FsEvent.statFile "a"] ∧
        ∃ prev, snapLookup [("a", ⟨"d0", 5⟩)] "a" = some prev ∧
          (⟨"d0", 5⟩ : GlobDiffFileSnapshot).hash = prev.hash)
      ↔ false = false ∧
        ∃ prev, snapLookup [("a", ⟨"d0", 5⟩)] "a" = some prev ∧
          prev.mtimeMs = 5) ∧
    (¬ (false = false ∧
          ∃ prev, snapLookup [("a", ⟨"d0", 5⟩)] "a" = some prev ∧
            prev.mtimeMs = 5) →
      (⟨"d0", 5⟩ : GlobDiffFileSnapshot).hash = "h" ∧
        FsEvent.hashFile "a" ∈ [FsEvent.statFile "a"]) :=
  fingerprintFile_reuse_iff false [("a", ⟨"d0", 5⟩)] (fun _ => "h")
    (fun _ => 5) "a" ⟨"d0", 5⟩ [FsEvent.statFile "a"] rfl

/-! ## Claims about the Differ -/

theorem getGlobDiffChanges_eq (prev next : GlobDiffSnapshot) :
    getGlobDiffChanges prev next =
      ((prev.map (fun e => e.1)).filter
          (fun p => !((next.map (fun e => e.1)).contains p))).map
        (fun p => { type := .delete, filePath := p })
      ++ (next.map (fun e => e.1)).filterMap (fun p =>
          if !((prev.map (fun e => e.1)).contains p) then
            some { type := .create, filePath := p }
          else if (snapLookup prev p).map (fun e => e.hash) ≠
                  (snapLookup next p).map (fun e => e.hash) then
            some { type := .update, filePath := p }
          else none) := rfl

theorem countP_match_and (l : List String) (hnd : l.Nodup) (p : String)
    (b : String → Bool) :
    l.countP (fun x => x == p && b x) = if p ∈ l ∧ b p then 1 else 0 := by
  induction l with
  | nil => simp
  | cons a as ih =>
      rw [List.nodup_cons] at hnd
      rw [List.countP_cons, ih hnd.2]
      by_cases ha : a = p
      · subst ha
        have hnot : ¬ (a ∈ as ∧ b a) := fun hcon => hnd.1 hcon.1
        rw [if_neg hnot]
        by_cases hb : b a = true
        · simp [hb]
        · simp [hb, Bool.eq_false_iff.mpr hb]
      · have : (a == p && b a) = false := by
          simp [ha]
        rw [this]
        simp only [Bool.false_eq_true, if_false, Nat.add_zero, List.mem_cons]
        have : (p = a ∨ p ∈ as) ∧ b p ↔ p ∈ as ∧ b p := by
          constructor
          · rintro ⟨hpa | hpas, hb⟩
            · exact absurd hpa.symm ha
            · exact ⟨hpas, hb⟩
          · rintro ⟨hpas, hb⟩
            exact ⟨Or.inr hpas, hb⟩
        rw [if_congr this rfl rfl]

/-- C2: for every pair of snapshots with unique keys, the differ emits
exactly one `delete` record per path in `previous` but not in `next`,
exactly one `create` record per path in `next` but not in `previous`,
exactly one `update` record per shared path whose hash differs, and no
record at all for a shared path with equal hash (regardless of
`mtimeMs`); and the output splits as delete records followed by records
that are not deletes. -/
theorem getGlobDiffChanges_spec (prev next : GlobDiffSnapshot)
    (hp : (prev.map (fun e => e.1)).Nodup)
    (hn : (next.map (fun e => e.1)).Nodup) :
    (∀ p, (getGlobDiffChanges prev next).countP
        (fun r => r.type == GlobDiffChangeType.delete && r.filePath == p) =
      if p ∈ prev.map (fun e => e.1) ∧ ¬ p ∈ next.map (fun e => e.1)
        then 1 else 0) ∧
    (∀ p, (getGlobDiffChanges prev next).countP
        (fun r => r.type == GlobDiffChangeType.create && r.filePath == p) =
      if p ∈ next.map (fun e => e.1) ∧ ¬ p ∈ prev.map (fun e => e.1)
        then 1 else 0) ∧
    (∀ p, (getGlobDiffChanges prev next).countP
        (fun r => r.type == GlobDiffChangeType.update && r.filePath == p) =
      if p ∈ next.map (fun e => e.1) ∧ p ∈ prev.map (fun e => e.1) ∧
           (snapLookup prev p).map (fun e => e.hash) ≠
             (snapLookup next p).map (fun e => e.hash)
        then 1 else 0) ∧
    (∀ p, p ∈ prev.map (fun e => e.1) → p ∈ next.map (fun e => e.1) →
      (snapLookup prev p).map (fun e => e.hash) =
        (snapLookup next p).map (fun e => e.hash) →
      (getGlobDiffChanges prev next).countP (fun r => r.filePath == p) = 0) ∧
    (∃ ds cs, getGlobDiffChanges prev next = ds ++ cs ∧
       (∀ r ∈ ds, r.type = GlobDiffChangeType.delete) ∧
       (∀ r ∈ cs, r.type ≠ GlobDiffChangeType.delete)) := by
  refine ⟨?_, ?_, ?_, ?_, ?_⟩
  · intro p
    rw [getGlobDiffChanges_eq, List.countP_append, List.countP_map,
      List.countP_filter, List.countP_filterMap]
    have h1 : (fun a => ((fun r : GlobDiffChange =>
            r.type == GlobDiffChangeType.delete && r.filePath == p) ∘
            (fun q => ({ type := .delete, filePath := q } : GlobDiffChange))) a
          && !((next.map (fun e => e.1)).contains a)) =
        (fun x => x == p && !((next.map (fun e => e.1)).contains x)) := by
      funext x
      simp [Function.comp]
    rw [h1, countP_match_and _ hp]
    have h2 : ∀ a ∈ next.map (fun e => e.1), ¬ ((((if !((prev.map (fun e => e.1)).contains a) then
            some ({ type := .create, filePath := a } : GlobDiffChange)
          else if (snapLookup prev a).map (fun e => e.hash) ≠
                  (snapLookup next a).map (fun e => e.hash) then
            some { type := .update, filePath := a }
          else none).map (fun r =>
            r.type == GlobDiffChangeType.delete && r.filePath == p)).getD false)
          = true) := by
      intro a _
      by_cases hc : a ∈ prev.map (fun e => e.1)
      · by_cases hh : (snapLookup prev a).map (fun e => e.hash) =
            (snapLookup next a).map (fun e => e.hash)
        · simp [hc, hh]
        · simp [hc, hh]
      · simp [hc]
    rw [List.countP_eq_zero.mpr h2, Nat.add_zero]
    have hiff : (p ∈ prev.map (fun e => e.1) ∧
          (!((next.map (fun e => e.1)).contains p)) = true) ↔
        (p ∈ prev.map (fun e => e.1) ∧ ¬ p ∈ next.map (fun e => e.1)) := by
      simp
    rw [if_congr hiff rfl rfl]
  · intro p
    rw [getGlobDiffChanges_eq, List.countP_append, List.countP_map,
      List.countP_filter, List.countP_filterMap]
    have h1 : ((prev.map (fun e => e.1)).countP (fun a =>
        ((fun r : GlobDiffChange =>
            r.type == GlobDiffChangeType.create && r.filePath == p) ∘
            (fun q => ({ type := .delete, filePath := q } : GlobDiffChange))) a
          && !((next.map (fun e => e.1)).contains a))) = 0 := by
      apply List.countP_eq_zero.mpr
      intro a _
      simp [Function.comp]
    rw [h1, Nat.zero_add]
    have h2 : (fun a => (((if !((prev.map (fun e => e.1)).contains a) then
            some ({ type := .create, filePath := a } : GlobDiffChange)
          else if (snapLookup prev a).map (fun e => e.hash) ≠
                  (snapLookup next a).map (fun e => e.hash) then
            some { type := .update, filePath := a }
          else none).map (fun r =>
            r.type == GlobDiffChangeType.create && r.filePath == p)).getD
          false)) =
        (fun x => x == p && !((prev.map (fun e => e.1)).contains x)) := by
      funext x
      by_cases hc : x ∈ prev.map (fun e => e.1)
      · by_cases hh : (snapLookup prev x).map (fun e => e.hash) =
            (snapLookup next x).map (fun e => e.hash)
        · simp [hc, hh]
        · simp [hc, hh]
      · simp [hc]
    rw [h2, countP_match_and _ hn]
    have hiff : (p ∈ next.map (fun e => e.1) ∧
          (!((prev.map (fun e => e.1)).contains p)) = true) ↔
        (p ∈ next.map (fun e => e.1) ∧ ¬ p ∈ prev.map (fun e => e.1)) := by
      simp
    rw [if_congr hiff rfl rfl]
  · intro p
    rw [getGlobDiffChanges_eq, List.countP_append, List.countP_map,
      List.countP_filter, List.countP_filterMap]
    have h1 : ((prev.map (fun e => e.1)).countP (fun a =>
        ((fun r : GlobDiffChange =>
            r.type == GlobDiffChangeType.update && r.filePath == p) ∘
            (fun q => ({ type := .delete, filePath := q } : GlobDiffChange))) a
          && !((next.map (fun e => e.1)).contains a))) = 0 := by
      apply List.countP_eq_zero.mpr
      intro a _
      simp [Function.comp]
    rw [h1, Nat.zero_add]
    have h2 : (fun a => (((if !((prev.map (fun e => e.1)).contains a) then
            some ({ type := .create, filePath := a } : GlobDiffChange)
          else if (snapLookup prev a).map (fun e => e.hash) ≠
                  (snapLookup next a).map (fun e => e.hash) then
            some { type := .update, filePath := a }
          else none).map (fun r =>
            r.type == GlobDiffChangeType.update && r.filePath == p)).getD
          false)) =
        (fun x => x == p && ((prev.map (fun e => e.1)).contains x &&
          decide ((snapLookup prev x).map (fun e => e.hash) ≠
            (snapLookup next x).map (fun e => e.hash)))) := by
      funext x
      by_cases hc : x ∈ prev.map (fun e => e.1)
      · by_cases hh : (snapLookup prev x).map (fun e => e.hash) =
            (snapLookup next x).map (fun e => e.hash)
        · simp [hc, hh]
        · simp [hc, hh]
      · simp [hc]
    rw [h2, countP_match_and _ hn]
    have hiff : (p ∈ next.map (fun e => e.1) ∧
          ((prev.map (fun e => e.1)).contains p &&
            decide ((snapLookup prev p).map (fun e => e.hash) ≠
              (snapLookup next p).map (fun e => e.hash))) = true) ↔
        (p ∈ next.map (fun e => e.1) ∧ p ∈ prev.map (fun e => e.1) ∧
          (snapLookup prev p).map (fun e => e.hash) ≠
            (snapLookup next p).map (fun e => e.hash)) := by
      simp [and_assoc]
    rw [if_congr hiff rfl rfl]
  · intro p hp4 hq4 hh4
    rw [getGlobDiffChanges_eq, List.countP_append, List.countP_map,
      List.countP_filter]
    have h1 : ((prev.map (fun e => e.1)).countP (fun a =>
        ((fun r : GlobDiffChange => r.filePath == p) ∘
            (fun q => ({ type := .delete, filePath := q } : GlobDiffChange))) a
          && !((next.map (fun e => e.1)).contains a))) = 0 := by
      apply List.countP_eq_zero.mpr
      intro a _
      by_cases hap : a = p
      · subst hap
        simp [hq4]
      · simp [Function.comp, hap]
    rw [h1, Nat.zero_add, List.countP_filterMap]
    apply List.countP_eq_zero.mpr
    intro a _
    by_cases hap : a = p
    · subst hap
      simp [hp4, hh4]
    · by_cases hc : a ∈ prev.map (fun e => e.1)
      · by_cases hh : (snapLookup prev a).map (fun e => e.hash) =
            (snapLookup next a).map (fun e => e.hash)
        · simp [hc, hh]
        · simp [hc, hh, hap]
      · simp [hc, hap]
  · refine ⟨_, _, getGlobDiffChanges_eq prev next, ?_, ?_⟩
    · intro r hr
      rcases List.mem_map.mp hr with ⟨x, -, rfl⟩
      rfl
    · intro r hr
      rcases List.mem_filterMap.mp hr with ⟨x, -, hx⟩
      by_cases hc : x ∈ prev.map (fun e => e.1)
      · by_cases hh : (snapLookup prev x).map (fun e => e.hash) =
            (snapLookup next x).map (fun e => e.hash)
        · simp [hc, hh] at hx
        · simp [hc, hh] at hx
          rw [← hx]
          simp
      · simp [hc] at hx
        rw [← hx]
        simp

/-- Witness for C2: previous `{a, b}`, next `{b, c}` where `b` keeps its
hash but changes its `mtimeMs`: exactly one delete record for `a`. -/
theorem getGlobDiffChanges_spec_witness :
    (getGlobDiffChanges
        [("a", ⟨"h1", 1⟩), ("b", ⟨"h2", 2⟩)]
        [("b", ⟨"h2", 9⟩), ("c", ⟨"h3", 3⟩)]).countP
      (fun r => r.type == GlobDiffChangeType.delete && r.filePath == "a") =
    (if "a" ∈ ([("a", (⟨"h1", 1⟩ : GlobDiffFileSnapshot)),
            ("b", ⟨"h2", 2⟩)].map (fun e => e.1)) ∧
        ¬ "a" ∈ ([("b", (⟨"h2", 9⟩ : GlobDiffFileSnapshot)),
            ("c", ⟨"h3", 3⟩)].map (fun e => e.1))
      then 1 else 0) :=
  (getGlobDiffChanges_spec
    [("a", ⟨"h1", 1⟩), ("b", ⟨"h2", 2⟩)]
    [("b", ⟨"h2", 9⟩), ("c", ⟨"h3", 3⟩)]
    (by decide) (by decide)).1 "a"

/-! ## Claims about the Snapshot Builder -/

/-- C5: for every list of distinct, already-resolved file paths (paths
that `path.resolve` leaves unchanged), previous snapshot and `alwaysHash`
flag, the built snapshot's key list is exactly the input list — one entry
per input path, keys distinct, and a path has an entry if and only if it
is an input path (so no entry is carried over from the previous snapshot
for a path not in the input list). -/
theorem getGlobDiffSnapshot_keys (env : GlobDiffEnv) (alwaysHash : Bool)
    (patterns : Option GlobDiffPatterns) (files : List String)
    (previousSnapshot : GlobDiffSnapshot)
    (hres : ∀ p ∈ files, env.resolve p = p) (hnd : files.Nodup) :
    ((getGlobDiffSnapshot env alwaysHash (some files) patterns
        previousSnapshot).1.map (fun e => e.1)) = files ∧
    ((getGlobDiffSnapshot env alwaysHash (some files) patterns
        previousSnapshot).1.map (fun e => e.1)).Nodup ∧
    (∀ p, (snapLookup (getGlobDiffSnapshot env alwaysHash (some files)
        patterns previousSnapshot).1 p).isSome = true ↔ p ∈ files) := by
  have hmap : files.map env.resolve = files := by
    have h1 : files.map env.resolve = files.map id := List.map_congr_left hres
    rw [h1, List.map_id]
  have hfst : (getGlobDiffSnapshot env alwaysHash (some files) patterns
      previousSnapshot).1 =
    files.map (fun fp =>
      (fp, (fingerprintFile alwaysHash previousSnapshot env.hashFn env.stat
              fp).1)) := by
    show (files.map env.resolve).map (fun fp =>
        (fp, (fingerprintFile alwaysHash previousSnapshot env.hashFn env.stat
                fp).1)) = _
    rw [hmap]
  refine ⟨?_, ?_, ?_⟩
  · rw [hfst, List.map_map]
    simp [Function.comp_def]
  · rw [hfst, List.map_map]
    simpa [Function.comp_def] using hnd
  · intro p
    rw [hfst, snapLookup_map_self]
    by_cases hp : p ∈ files
    · simp [hp]
    · simp [hp]

/-- Witness for C5: two distinct already-absolute paths. -/
theorem getGlobDiffSnapshot_keys_witness :
    ((getGlobDiffSnapshot
        ⟨fun _ => [], fun s => s, fun _ => 0, fun _ => "d", none, fun _ => none⟩
        false (some ["a", "b"]) none []).1.map (fun e => e.1)) = ["a", "b"] ∧
    ((getGlobDiffSnapshot
        ⟨fun _ => [], fun s => s, fun _ => 0, fun _ => "d", none, fun _ => none⟩
        false (some ["a", "b"]) none []).1.map (fun e => e.1)).Nodup ∧
    (∀ p, (snapLookup (getGlobDiffSnapshot
        ⟨fun _ => [], fun s => s, fun _ => 0, fun _ => "d", none, fun _ => none⟩
        false (some ["a", "b"]) none []).1 p).isSome = true ↔ p ∈ ["a", "b"]) :=
  getGlobDiffSnapshot_keys
    ⟨fun _ => [], fun s => s, fun _ => 0, fun _ => "d", none, fun _ => none⟩
    false none ["a", "b"] [] (by intro p _; rfl) (by decide)

/-! ## Idempotence (C6) -/

theorem getGlobDiffChanges_eq_nil_of_same_keys_same_hashes
    (prev next : GlobDiffSnapshot)
    (hkeys : next.map (fun e => e.1) = prev.map (fun e => e.1))
    (hhash : ∀ p ∈ prev.map (fun e => e.1),
      (snapLookup prev p).map (fun e => e.hash) =
        (snapLookup next p).map (fun e => e.hash)) :
    getGlobDiffChanges prev next = [] := by
  rw [getGlobDiffChanges_eq, hkeys, List.append_eq_nil]
  constructor
  · rw [List.map_eq_nil_iff, List.filter_eq_nil_iff]
    intro a ha
    simp [ha]
  · rw [List.filterMap_eq_nil_iff]
    intro a ha
    have hh := hhash a ha
    simp [ha, hh]

/-- C6: for every snapshot `s`, rebuilding over exactly `s`'s paths with
`alwaysHash` false and unchanged modification times (the stat of each
recorded path returns the recorded `mtimeMs`) reuses every previous hash,
and diffing `s` against the rebuilt snapshot produces no change records —
so a second run over an unchanged file set reports an empty change
list. -/
theorem rebuild_unchanged_diff_empty (s : GlobDiffSnapshot)
    (hashFn : String → String) (stat : String → Int)
    (hst : ∀ p e, snapLookup s p = some e → stat p = e.mtimeMs) :
    getGlobDiffChanges s
      (buildSnapshot false (s.map (fun e => e.1)) s hashFn stat).1 = [] := by
  have hb : (buildSnapshot false (s.map (fun e => e.1)) s hashFn stat).1 =
      (s.map (fun e => e.1)).map (fun fp =>
        (fp, (fingerprintFile false s hashFn stat fp).1)) := rfl
  apply getGlobDiffChanges_eq_nil_of_same_keys_same_hashes
  · rw [hb, List.map_map]
    simp [Function.comp_def]
  · intro p hp
    obtain ⟨e, he⟩ := Option.isSome_iff_exists.mp
      ((snapLookup_isSome_iff s p).mpr hp)
    have hre : (fingerprintFile false s hashFn stat p).1 =
        ⟨e.hash, stat p⟩ := by
      rw [fingerprintFile_some_reuse false s hashFn stat p e he
        (by simp [hst p e he])]
    rw [hb, snapLookup_map_self, if_pos hp, he, hre]
    simp

/-- Witness for C6: one recorded file whose stat returns the recorded
timestamp, while the (hypothetical) fresh hash would differ. -/
theorem rebuild_unchanged_diff_empty_witness :
    getGlobDiffChanges [("a", ⟨"h1", 5⟩)]
      (buildSnapshot false
        ([("a", (⟨"h1", 5⟩ : GlobDiffFileSnapshot))].map (fun e => e.1))
        [("a", ⟨"h1", 5⟩)] (fun _ => "h2") (fun _ => 5)).1 = [] :=
  rebuild_unchanged_diff_empty [("a", ⟨"h1", 5⟩)] (fun _ => "h2")
    (fun _ => 5)
    (by
      intro p e h
      rw [snapLookup_cons] at h
      split at h
      · cases h
        rfl
      · cases h)

/-! ## Claims about snapshot shape validation -/

theorem jsTypeof_eq_string_iff (v : JSValue) :
    jsTypeof v = "string" ↔ ∃ s, v = JSValue.str s := by
  cases v
  case str s => exact ⟨fun _ => ⟨s, rfl⟩, fun _ => rfl⟩
  all_goals
    refine ⟨fun h => ?_, ?_⟩
    · simp [jsTypeof] at h
    · rintro ⟨s, hs⟩
      cases hs

theorem jsTypeof_eq_number_iff (v : JSValue) :
    jsTypeof v = "number" ↔ ∃ n, v = JSValue.num n := by
  cases v
  case num n => exact ⟨fun _ => ⟨n, rfl⟩, fun _ => rfl⟩
  all_goals
    refine ⟨fun h => ?_, ?_⟩
    · simp [jsTypeof] at h
    · rintro ⟨n, hn⟩
      cases hn

theorem entryValid_iff (k : String) (w : JSValue) :
    (!(jsTypeof (JSValue.str k) ≠ "string" ∨
        jsTypeof w ≠ "object" ∨
        jsIsNull w ∨
        !(jsHasProp w "hash") ∨
        !(jsHasProp w "mtimeMs") ∨
        jsTypeof (jsGet w "hash") ≠ "string" ∨
        jsTypeof (jsGet w "mtimeMs") ≠ "number") : Bool) = true ↔
      (jsTypeof w = "object" ∧ jsIsNull w = false ∧
        jsHasProp w "hash" = true ∧ jsHasProp w "mtimeMs" = true ∧
        (∃ s, jsGet w "hash" = JSValue.str s) ∧
        (∃ n, jsGet w "mtimeMs" = JSValue.num n)) := by
  rw [Bool.not_eq_true', decide_eq_false_iff_not]
  simp only [not_or, ne_eq, not_not, Bool.not_eq_true, Bool.not_eq_false]
  constructor
  · rintro ⟨-, hB, hC, hD, hE, hF, hG⟩
    exact ⟨hB, by simpa using hC, by simpa using hD, by simpa using hE,
      (jsTypeof_eq_string_iff _).mp hF, (jsTypeof_eq_number_iff _).mp hG⟩
  · rintro ⟨hB, hC, hD, hE, hF, hG⟩
    exact ⟨by simp [jsTypeof], hB, by simp [hC], by simp [hD], by simp [hE],
      (jsTypeof_eq_string_iff _).mpr hF, (jsTypeof_eq_number_iff _).mpr hG⟩

/-- C3 counterexample: the empty array is accepted by the validator
(`typeof [] === 'object'` and `Object.entries([])` is empty), refuting
the claim that every array-valued input fails validation. -/
theorem isValid_empty_array_accepted :
    isValidGlobDiffSnapshot (JSValue.arr []) = true := by decide

/-- C3 (amended): validation returns false exactly when the top-level
value is not object-typed (`typeof` different from `"object"`: strings,
numbers, booleans, `undefined`) or is `null`, or some entry's value is
not object-typed, is `null`, lacks a `hash` or `mtimeMs` property, or
has a non-string `hash` or non-number `mtimeMs`; it returns true
otherwise. Arrays are object-typed, so an array is rejected only by way
of its entries (an empty array passes). -/
theorem isValidGlobDiffSnapshot_iff (v : JSValue) :
    isValidGlobDiffSnapshot v = true ↔
      (jsTypeof v = "object" ∧ jsIsNull v = false ∧
        ∀ e ∈ jsEntries v,
          jsTypeof e.2 = "object" ∧ jsIsNull e.2 = false ∧
          jsHasProp e.2 "hash" = true ∧ jsHasProp e.2 "mtimeMs" = true ∧
          (∃ s, jsGet e.2 "hash" = JSValue.str s) ∧
          (∃ n, jsGet e.2 "mtimeMs" = JSValue.num n)) := by
  unfold isValidGlobDiffSnapshot
  split
  · rename_i h
    constructor
    · intro hf
      cases hf
    · rintro ⟨h1, h2, -⟩
      rcases h with h | h
      · exact absurd h1 h
      · rw [h2] at h
        cases h
  · rename_i h
    rw [not_or] at h
    obtain ⟨h1, h2⟩ := h
    rw [ne_eq, not_not] at h1
    rw [Bool.not_eq_true] at h2
    rw [List.all_eq_true]
    simp only [h1, h2, true_and]
    refine forall_congr' fun e => imp_congr_right fun _ => ?_
    exact entryValid_iff e.1 e.2

/-! ## Claims about the orchestrator -/

theorem readSnapshotFile_not_mem_fingerprint (alwaysHash : Bool)
    (previousSnapshot : GlobDiffSnapshot) (hashFn : String → String)
    (stat : String → Int) (filePath : String) :
    FsEvent.readSnapshotFile ∉
      (fingerprintFile alwaysHash previousSnapshot hashFn stat filePath).2 := by
  rcases hl : snapLookup previousSnapshot filePath with _ | prev
  · rw [fingerprintFile_none alwaysHash previousSnapshot hashFn stat filePath hl]
    simp
  · cases hc : (!alwaysHash && prev.mtimeMs == stat filePath)
    · rw [fingerprintFile_some_fresh alwaysHash previousSnapshot hashFn stat
        filePath prev hl hc]
      simp
    · rw [fingerprintFile_some_reuse alwaysHash previousSnapshot hashFn stat
        filePath prev hl hc]
      simp

theorem getGlobDiffSnapshot_files_eq (env : GlobDiffEnv) (alwaysHash : Bool)
    (fs : List String) (patterns : Option GlobDiffPatterns)
    (previousSnapshot : GlobDiffSnapshot) :
    getGlobDiffSnapshot env alwaysHash (some fs) patterns previousSnapshot =
      buildSnapshot alwaysHash (fs.map env.resolve) previousSnapshot
        env.hashFn env.stat := rfl

theorem getGlobDiffSnapshot_glob_eq (env : GlobDiffEnv) (alwaysHash : Bool)
    (patterns : Option GlobDiffPatterns)
    (previousSnapshot : GlobDiffSnapshot) :
    getGlobDiffSnapshot env alwaysHash none patterns previousSnapshot =
      ((buildSnapshot alwaysHash (env.globby (effectivePatterns patterns))
          previousSnapshot env.hashFn env.stat).1,
       .glob :: (buildSnapshot alwaysHash
          (env.globby (effectivePatterns patterns))
          previousSnapshot env.hashFn env.stat).2) := rfl

theorem globDiffModel_no_snapshot (env : GlobDiffEnv)
    (options : GlobDiffOptions) (h : options.snapshot = none) :
    globDiffModel env options = globDiffLoadAndRest env options := by
  unfold globDiffModel
  rw [h]

theorem globDiffModel_some_snapshot (env : GlobDiffEnv)
    (options : GlobDiffOptions) (v : JSValue) (h : options.snapshot = some v) :
    globDiffModel env options =
      (if jsTruthy v = true then
        if isValidGlobDiffSnapshot v = false then
          ([], Except.error "Invalid `glob-diff` snapshot")
        else
          globDiffRest env options (jsToSnapshot v)
      else
        globDiffLoadAndRest env options) := by
  unfold globDiffModel
  rw [h]

theorem globDiffLoadAndRest_load_error (env : GlobDiffEnv)
    (options : GlobDiffOptions) (e : String)
    (h : loadGlobDiffSnapshot env.snapshotFileContent env.parse =
          Except.error e) :
    globDiffLoadAndRest env options = ([.readSnapshotFile], .error e) := by
  unfold globDiffLoadAndRest
  rw [h]

theorem globDiffLoadAndRest_load_ok (env : GlobDiffEnv)
    (options : GlobDiffOptions) (loaded : JSValue)
    (h : loadGlobDiffSnapshot env.snapshotFileContent env.parse =
          Except.ok loaded) :
    globDiffLoadAndRest env options =
      (.readSnapshotFile ::
          (globDiffRest env options (jsToSnapshot loaded)).1,
       (globDiffRest env options (jsToSnapshot loaded)).2) := by
  unfold globDiffLoadAndRest
  rw [h]

theorem readSnapshotFile_not_mem_build (alwaysHash : Bool)
    (filePaths : List String) (previousSnapshot : GlobDiffSnapshot)
    (hashFn : String → String) (stat : String → Int) :
    FsEvent.readSnapshotFile ∉
      (buildSnapshot alwaysHash filePaths previousSnapshot hashFn stat).2 := by
  intro hm
  rw [buildSnapshot, List.mem_flatMap] at hm
  rcases hm with ⟨fp, -, hm⟩
  exact readSnapshotFile_not_mem_fingerprint _ _ _ _ _ hm

theorem readSnapshotFile_not_mem_rest (env : GlobDiffEnv)
    (options : GlobDiffOptions) (previousSnapshot : GlobDiffSnapshot) :
    FsEvent.readSnapshotFile ∉ (globDiffRest env options previousSnapshot).1 := by
  unfold globDiffRest
  split
  · simp
  · intro hmem
    rw [List.mem_append] at hmem
    rcases hmem with hmem | hmem
    · rcases hfiles : options.files with _ | fs
      · rw [hfiles, getGlobDiffSnapshot_glob_eq] at hmem
        rw [List.mem_cons] at hmem
        rcases hmem with h | h
        · cases h
        · exact readSnapshotFile_not_mem_build _ _ _ _ _ h
      · rw [hfiles, getGlobDiffSnapshot_files_eq] at hmem
        exact readSnapshotFile_not_mem_build _ _ _ _ _ hmem
    · split at hmem <;> simp at hmem

/-- C4 counterexample: with neither `patterns` nor `files` supplied and no
in-memory snapshot, the invocation does fail with the configuration
error, but only after the snapshot file has been read — the claim that
the error precedes all file I/O is false. -/
theorem globDiff_config_error_after_read :
    (globDiffModel emptyEnv {}).2 =
      Except.error "Either `patterns` or `files` must be provided" ∧
    FsEvent.readSnapshotFile ∈ (globDiffModel emptyEnv {}).1 := by
  constructor
  · rfl
  · show FsEvent.readSnapshotFile ∈ [FsEvent.readSnapshotFile]
    simp

/-- C4 (amended): whenever neither `patterns` nor `files` is supplied,
the operation fails, and the only file I/O that can occur before the
failure is the snapshot-file read: no glob, stat, hash or write is
performed. When a truthy, shape-valid in-memory snapshot is supplied, the
configuration error is reported with no I/O at all; when instead the
previous snapshot is loaded (successfully) from storage, the
configuration error is reported after that single read. -/
theorem globDiff_missing_selection (env : GlobDiffEnv)
    (options : GlobDiffOptions)
    (hp : options.patterns = none) (hf : options.files = none) :
    (∃ msg, (globDiffModel env options).2 = Except.error msg) ∧
    (∀ e ∈ (globDiffModel env options).1, e = FsEvent.readSnapshotFile) ∧
    (∀ v, options.snapshot = some v → jsTruthy v = true →
        isValidGlobDiffSnapshot v = true →
      globDiffModel env options =
        ([], Except.error "Either `patterns` or `files` must be provided")) ∧
    (∀ loaded,
        loadGlobDiffSnapshot env.snapshotFileContent env.parse = .ok loaded →
        (options.snapshot = none ∨
          ∃ v, options.snapshot = some v ∧ jsTruthy v = false) →
      globDiffModel env options =
        ([FsEvent.readSnapshotFile],
         Except.error "Either `patterns` or `files` must be provided")) := by
  have hrest : ∀ prevSnap, globDiffRest env options prevSnap =
      ([], Except.error "Either `patterns` or `files` must be provided") := by
    intro prevSnap
    unfold globDiffRest
    rw [hp, hf]
    simp [optPatternsTruthy]
  have hmain : globDiffModel env options =
        ([], Except.error "Invalid `glob-diff` snapshot") ∨
      (∃ e, globDiffModel env options = ([.readSnapshotFile], .error e)) ∨
      globDiffModel env options =
        ([], Except.error "Either `patterns` or `files` must be provided") ∨
      globDiffModel env options =
        ([.readSnapshotFile],
         Except.error "Either `patterns` or `files` must be provided") := by
    rcases hs : options.snapshot with _ | v
    · rw [globDiffModel_no_snapshot env options hs]
      rcases hl : loadGlobDiffSnapshot env.snapshotFileContent env.parse
        with e | loaded
      · exact Or.inr (Or.inl ⟨e,
          globDiffLoadAndRest_load_error env options e hl⟩)
      · rw [globDiffLoadAndRest_load_ok env options loaded hl, hrest]
        exact Or.inr (Or.inr (Or.inr rfl))
    · rw [globDiffModel_some_snapshot env options v hs]
      cases htr : jsTruthy v
      · rw [if_neg (by simp : ¬ (false = true))]
        rcases hl : loadGlobDiffSnapshot env.snapshotFileContent env.parse
          with e | loaded
        · exact Or.inr (Or.inl ⟨e,
            globDiffLoadAndRest_load_error env options e hl⟩)
        · rw [globDiffLoadAndRest_load_ok env options loaded hl, hrest]
          exact Or.inr (Or.inr (Or.inr rfl))
      · rw [if_pos (rfl : (true = true))]
        cases hval : isValidGlobDiffSnapshot v
        · rw [if_pos (rfl : (false = false))]
          exact Or.inl rfl
        · rw [if_neg (by simp : ¬ (true = false)), hrest]
          exact Or.inr (Or.inr (Or.inl rfl))
  refine ⟨?_, ?_, ?_, ?_⟩
  · rcases hmain with h | ⟨e, h⟩ | h | h <;> rw [h] <;> exact ⟨_, rfl⟩
  · intro e he
    rcases hmain with h | ⟨msg, h⟩ | h | h
    · rw [h] at he
      simp at he
    · rw [h] at he
      simpa using he
    · rw [h] at he
      simp at he
    · rw [h] at he
      simpa using he
  · intro v hv htr hval
    rw [globDiffModel_some_snapshot env options v hv, if_pos htr]
    have hvnot : ¬ (isValidGlobDiffSnapshot v = false) := by
      rw [hval]
      simp
    rw [if_neg hvnot, hrest]
  · intro loaded hl hnotruthy
    have hstep : globDiffModel env options = globDiffLoadAndRest env options := by
      rcases hnotruthy with hnone | ⟨v, hv, hfalse⟩
      · exact globDiffModel_no_snapshot env options hnone
      · rw [globDiffModel_some_snapshot env options v hv, hfalse]
        simp
    rw [hstep, globDiffLoadAndRest_load_ok env options loaded hl, hrest]

theorem globDiff_missing_selection_witness :
    (∃ msg, (globDiffModel emptyEnv {}).2 = Except.error msg) ∧
    (∀ e ∈ (globDiffModel emptyEnv {}).1, e = FsEvent.readSnapshotFile) ∧
    (∀ v, ({} : GlobDiffOptions).snapshot = some v → jsTruthy v = true →
        isValidGlobDiffSnapshot v = true →
      globDiffModel emptyEnv {} =
        ([], Except.error "Either `patterns` or `files` must be provided")) ∧
    (∀ loaded,
        loadGlobDiffSnapshot emptyEnv.snapshotFileContent emptyEnv.parse =
          .ok loaded →
        (({} : GlobDiffOptions).snapshot = none ∨
          ∃ v, ({} : GlobDiffOptions).snapshot = some v ∧ jsTruthy v = false) →
      globDiffModel emptyEnv {} =
        ([FsEvent.readSnapshotFile],
         Except.error "Either `patterns` or `files` must be provided")) :=
  globDiff_missing_selection emptyEnv {} rfl rfl

/-- C7: when the caller supplies a (truthy) in-memory previous snapshot:
if it fails shape validation the operation fails with the validation
error and performs no file I/O at all; if it passes, the run proceeds as
the rest of the operation applied to exactly the supplied snapshot, and
the snapshot file on disk is never read. -/
theorem globDiff_supplied_snapshot (env : GlobDiffEnv)
    (options : GlobDiffOptions) (v : JSValue)
    (hv : options.snapshot = some v) (ht : jsTruthy v = true) :
    (isValidGlobDiffSnapshot v = false →
      globDiffModel env options =
        ([], Except.error "Invalid `glob-diff` snapshot")) ∧
    (isValidGlobDiffSnapshot v = true →
      globDiffModel env options = globDiffRest env options (jsToSnapshot v) ∧
      FsEvent.readSnapshotFile ∉ (globDiffModel env options).1) := by
  rw [globDiffModel_some_snapshot env options v hv, if_pos ht]
  constructor
  · intro hbad
    rw [if_pos hbad]
  · intro hgood
    have hvnot : ¬ (isValidGlobDiffSnapshot v = false) := by
      rw [hgood]
      simp
    rw [if_neg hvnot]
    exact ⟨rfl, readSnapshotFile_not_mem_rest env options (jsToSnapshot v)⟩

/-- Witness for C7: a supplied valid snapshot object with one entry. -/
theorem globDiff_supplied_snapshot_witness :
    (isValidGlobDiffSnapshot
        (JSValue.obj [("a", JSValue.obj
          [("hash", JSValue.str "h"), ("mtimeMs", JSValue.num 3)])]) = false →
      globDiffModel emptyEnv
          { snapshot := some (JSValue.obj [("a", JSValue.obj
              [("hash", JSValue.str "h"), ("mtimeMs", JSValue.num 3)])]) } =
        ([], Except.error "Invalid `glob-diff` snapshot")) ∧
    (isValidGlobDiffSnapshot
        (JSValue.obj [("a", JSValue.obj
          [("hash", JSValue.str "h"), ("mtimeMs", JSValue.num 3)])]) = true →
      globDiffModel emptyEnv
          { snapshot := some (JSValue.obj [("a", JSValue.obj
              [("hash", JSValue.str "h"), ("mtimeMs", JSValue.num 3)])]) } =
        globDiffRest emptyEnv
          { snapshot := some (JSValue.obj [("a", JSValue.obj
              [("hash", JSValue.str "h"), ("mtimeMs", JSValue.num 3)])]) }
          (jsToSnapshot (JSValue.obj [("a", JSValue.obj
              [("hash", JSValue.str "h"), ("mtimeMs", JSValue.num 3)])])) ∧
      FsEvent.readSnapshotFile ∉
        (globDiffModel emptyEnv
          { snapshot := some (JSValue.obj [("a", JSValue.obj
              [("hash", JSValue.str "h"), ("mtimeMs", JSValue.num 3)])]) }).1) :=
  globDiff_supplied_snapshot emptyEnv
    { snapshot := some (JSValue.obj [("a", JSValue.obj
        [("hash", JSValue.str "h"), ("mtimeMs", JSValue.num 3)])]) }
    (JSValue.obj [("a", JSValue.obj
        [("hash", JSValue.str "h"), ("mtimeMs", JSValue.num 3)])])
    rfl rfl

/-! ## Claims about the snapshot store -/

/-- C8: loading with no snapshot file (a failed read) yields the empty
previous snapshot rather than an error; loading a present, non-empty
content that parses to a shape-invalid value fails with the
validation error. (`JSON.parse` rejects the empty string, so a parsed
value only exists for non-empty content.) -/
theorem loadGlobDiffSnapshot_spec (parse : String → Option JSValue)
    (content : String) (v : JSValue)
    (hne : content ≠ "") (hp : parse content = some v)
    (hbad : isValidGlobDiffSnapshot v = false) :
    loadGlobDiffSnapshot none parse = .ok (JSValue.obj []) ∧
    loadGlobDiffSnapshot (some content) parse =
      .error "Invalid `glob-diff` snapshot file" := by
  constructor
  · rfl
  · show (if content = "" then Except.ok (JSValue.obj [])
      else match parse content with
        | none => Except.error "SyntaxError: JSON.parse"
        | some snapshot =>
            if isValidGlobDiffSnapshot snapshot then Except.ok snapshot
            else Except.error "Invalid `glob-diff` snapshot file") =
      Except.error "Invalid `glob-diff` snapshot file"
    rw [if_neg hne, hp]
    simp [hbad]

/-- Witness for C8: a file whose content parses to the number `0`,
which fails shape validation. -/
theorem loadGlobDiffSnapshot_spec_witness :
    loadGlobDiffSnapshot none (fun _ => some (JSValue.num 0)) =
      .ok (JSValue.obj []) ∧
    loadGlobDiffSnapshot (some "0") (fun _ => some (JSValue.num 0)) =
      .error "Invalid `glob-diff` snapshot file" :=
  loadGlobDiffSnapshot_spec (fun _ => some (JSValue.num 0)) "0"
    (JSValue.num 0) (by decide) rfl (by decide)

/-- C10: the catch callback discards the rejection reason, so every
failed read — whatever its cause — is the single `none` outcome and
yields the empty previous snapshot; an empty-string file content is
falsy and likewise yields the empty previous snapshot, with no error in
either case. -/
theorem loadGlobDiffSnapshot_falsy_content (parse : String → Option JSValue) :
    loadGlobDiffSnapshot none parse = .ok (JSValue.obj []) ∧
    loadGlobDiffSnapshot (some "") parse = .ok (JSValue.obj []) := by
  constructor
  · rfl
  · show (if ("" : String) = "" then Except.ok (JSValue.obj [])
      else match parse "" with
        | none => Except.error "SyntaxError: JSON.parse"
        | some snapshot =>
            if isValidGlobDiffSnapshot snapshot then Except.ok snapshot
            else Except.error "Invalid `glob-diff` snapshot file") =
      Except.ok (JSValue.obj [])
    rw [if_pos rfl]

/-! ## The overloaded call shapes -/

/-- C9: calling the entry point in the two-argument shape with a patterns
value and an options object that carries no `patterns` key produces
exactly the same outcome as calling it in the single-argument shape with
that options object extended with `patterns`. -/
theorem globDiff_overload_equiv (env : GlobDiffEnv) (p : GlobDiffPatterns)
    (o : GlobDiffOptions) (hp : o.patterns = none) :
    globDiff env (.pats p) (some o) =
      globDiff env (.opts { o with patterns := some p }) none := by
  show globDiffModel env
      { o with patterns := match o.patterns with
          | some q => some q
          | none => some p } =
    globDiffModel env { o with patterns := some p }
  rw [hp]

/-- Witness for C9: a single glob string and the empty options object. -/
theorem globDiff_overload_equiv_witness :
    globDiff emptyEnv (.pats (.single "*")) (some {}) =
      globDiff emptyEnv
        (.opts { ({} : GlobDiffOptions) with patterns := some (.single "*") })
        none :=
  globDiff_overload_equiv emptyEnv (.single "*") {} rfl

end GlobDiff
